import Mathlib

/-!
Shallow embedding of the cash-flow ledger core of the `manager-motel`
repository (file `src/pages/Cashbook.tsx` and `src/lib/payments.ts`),
together with theorems settling the frozen claims about it.

Modelling conventions:
* Timestamps are modelled as integers counting milliseconds of local time
  since a fixed epoch (`dayNumber * 86400000 + msOfDay`).  The source
  converts local-time `Date` values to ISO/UTC strings before querying;
  under a fixed-offset timezone that conversion is a constant shift, which
  preserves every comparison the code performs, so the shift is dropped.
* Calendar dates are civil triples `(year, month, day)` with JavaScript's
  0-based months.  `dayNumber` is the standard rata-die style day count;
  it is normalisation-invariant (day 31 of February denotes the same
  instant JavaScript would normalise it to), which is exactly the
  semantics of the JavaScript `Date` setters.
* Monetary amounts are integers (the application stores integer VND);
  `Number(...)` coercions are modelled on integer literals.
-/

namespace Cashbook

/-- Milliseconds in one calendar day, as used throughout the model. -/
def msPerDay : Int := 86400000

/-- Gregorian leap-year test (JavaScript `Date` uses the proleptic
Gregorian calendar). -/
def isLeapYear (y : Int) : Bool :=
  (y % 4 == 0 && y % 100 != 0) || y % 400 == 0

/-- Number of days in month `m` (0-based, 0 = January) of a year whose
leap flag is `leap`. -/
def daysInMonthAux (m : Nat) (leap : Bool) : Int :=
  match m with
  | 0 => 31
  | 1 => if leap then 29 else 28
  | 2 => 31
  | 3 => 30
  | 4 => 31
  | 5 => 30
  | 6 => 31
  | 7 => 31
  | 8 => 30
  | 9 => 31
  | 10 => 30
  | _ => 31

/-- Days from the start of the year to the start of month `m`
(0-based). -/
def daysBeforeMonthAux (m : Nat) (leap : Bool) : Int :=
  match m with
  | 0 => 0
  | Nat.succ k => daysBeforeMonthAux k leap + daysInMonthAux k leap

/-- Number of leap years `z` with `0 ≤ z < y` (for the day count; any
consistent origin works since only differences of `dayNumber` matter). -/
def leapYearsBefore (y : Int) : Int :=
  (y - 1).fdiv 4 - (y - 1).fdiv 100 + (y - 1).fdiv 400

/-- Day number of the first day of month `mo` (0-based, arbitrary
integer: overflowing months roll into neighbouring years exactly as the
JavaScript `Date` constructor and setters normalise them). -/
def monthStartDN (y mo : Int) : Int :=
  let y2 := y + mo.fdiv 12
  let m2 := (mo.emod 12).toNat
  365 * y2 + leapYearsBefore y2 + daysBeforeMonthAux m2 (isLeapYear y2)

/-- Day number of civil date `(y, mo, d)`; like JavaScript dates this is
defined for any `d` by normalisation from the first of the month. -/
def dayNumber (y mo d : Int) : Int :=
  monthStartDN y mo + (d - 1)

/-- A calendar date as produced by a `<input type="date">` value
`YYYY-MM-DD`: `mo` is 0-based as returned by `Date.getMonth`. -/
structure YMD where
  y : Int
  mo : Int
  d : Int
deriving DecidableEq, Repr

/-- The date triples that actually come out of parsing a well-formed
`YYYY-MM-DD` string: month in range and day valid for the month.  On
this domain `Date.getFullYear/getMonth/getDate` return the components
unchanged, which the embedding of those getters relies on. -/
def ValidYMD (x : YMD) : Prop :=
  0 ≤ x.mo ∧ x.mo ≤ 11 ∧ 1 ≤ x.d ∧ x.d ≤ daysInMonthAux (x.mo.toNat) (isLeapYear x.y)

instance (x : YMD) : Decidable (ValidYMD x) := by
  unfold ValidYMD; infer_instance

/-- Day number of a parsed date. -/
def dn (x : YMD) : Int := dayNumber x.y x.mo x.d

/-- `startOfDayISO`: `new Date(s + "T00:00:00")` as a timestamp. -/
def startOfDayTS (x : YMD) : Int := dn x * msPerDay

/-- `endOfDayISO`: `new Date(s + "T23:59:59.999")` as a timestamp. -/
def endOfDayTS (x : YMD) : Int := dn x * msPerDay + (msPerDay - 1)

/-- `Date.prototype.setDate n` on a date lying in month `(y, mo)`:
the day becomes `n - 1` days after the first of that month (JavaScript
normalises out-of-range `n` exactly this way).  Returns the day number. -/
def jsSetDateDN (y mo n : Int) : Int :=
  monthStartDN y mo + (n - 1)

/-- The four values of the `FilterMode` union type. -/
inductive FilterMode where
  | TODAY
  | D7
  | D30
  | RANGE
deriving DecidableEq, Repr

/-- A half-open-or-closed time interval `[startTS, endTS]` as produced by
the window resolver (`listRange` / `monthRange`). -/
structure TimeRange where
  startTS : Int
  endTS : Int
deriving DecidableEq, Repr

/-- `listRange` from `Cashbook.tsx` (lines 221–239): the window used for
the displayed list, resolved from the filter mode, the anchor date
`selectedDate` and the custom bounds `rangeFrom`/`rangeTo`.

For `D7`/`D30` the source builds `end = new Date(sel + "T23:59:59.999")`,
copies it, calls `start.setDate(start.getDate() - (days - 1))` and then
`start.setHours(0,0,0,0)`; `getDate` of the freshly parsed date is its
day component (valid dates), and `setDate` is `jsSetDateDN`. -/
def listRange (mode : FilterMode) (sel f t : YMD) : TimeRange :=
  match mode with
  | .TODAY => ⟨startOfDayTS sel, endOfDayTS sel⟩
  | .D7 =>
      let days : Int := 7
      ⟨jsSetDateDN sel.y sel.mo (sel.d - (days - 1)) * msPerDay, endOfDayTS sel⟩
  | .D30 =>
      let days : Int := 30
      ⟨jsSetDateDN sel.y sel.mo (sel.d - (days - 1)) * msPerDay, endOfDayTS sel⟩
  | .RANGE => ⟨startOfDayTS f, endOfDayTS t⟩

/-- ECMAScript's two-digit-year remap in the multi-argument `Date`
constructor: an integer year argument between 0 and 99 denotes
1900–1999.  (The string constructor used everywhere else performs no
such remap.) -/
def jsCtorYear (y : Int) : Int :=
  if 0 ≤ y ∧ y ≤ 99 then 1900 + y else y

/-- `monthRange` from `Cashbook.tsx` (lines 242–247): from the parsed
anchor it builds `new Date(y, mo, 1)` and `new Date(y, mo + 1, 1)` with
the multi-argument constructor, whose year argument is subject to the
0–99 → 1900–1999 remap. -/
def monthRange (sel : YMD) : TimeRange :=
  ⟨monthStartDN (jsCtorYear sel.y) sel.mo * msPerDay,
   monthStartDN (jsCtorYear sel.y) (sel.mo + 1) * msPerDay⟩

/-- The calendar days completely covered by a time range: day `k` counts
when the range contains the whole interval from the first to the last
millisecond of day `k`. -/
def coveredDays (r : TimeRange) : Set Int :=
  {k | r.startTS ≤ k * msPerDay ∧ k * msPerDay + (msPerDay - 1) ≤ r.endTS}

/-! ## Ledger data model -/

/-- The `PaymentType` union type. -/
inductive PaymentType where
  | INCOME
  | EXPENSE
deriving DecidableEq, Repr

/-- The `PaymentMethod` union type. -/
inductive PaymentMethod where
  | CASH
  | TRANSFER
  | CARD
deriving DecidableEq, Repr

/-- The `PaymentRow` record returned by the list query.  `amount` is
declared `number` but the store can return `null` (the code guards every
read with `?? 0`), so it is modelled as `Option Int`.  `paid_at` is a
timestamp in the convention of this model. -/
structure PaymentRow where
  id : String
  type : PaymentType
  amount : Option Int
  method : PaymentMethod
  note : Option String
  paid_at : Int
  stay_id : Option String
  room_id : Option String
deriving DecidableEq, Repr

/-- The lighter `{type, amount}` projection used by the month and day
total queries (`select("type,amount")`). -/
structure AggRow where
  type : PaymentType
  amount : Option Int
deriving DecidableEq, Repr

/-- The `RoomLite` record (`select("id,name")` on `rooms`). -/
structure RoomLite where
  id : String
  name : String
deriving DecidableEq, Repr

/-- `Number(r.amount ?? 0)` on a possibly-null integer amount. -/
def amountOrZero (a : Option Int) : Int := a.getD 0

/-! ## Aggregation -/

/-- The reduction pattern of `refreshAll` for day/month totals:
`list.filter(r => r.type === t).reduce((s, r) => s + Number(r.amount ?? 0), 0)`. -/
def sumAgg (t : PaymentType) (l : List AggRow) : Int :=
  (l.filter (fun r => r.type = t)).foldl (fun s r => s + amountOrZero r.amount) 0

/-- The same reduction over full list rows, as in `rangeTotals`. -/
def sumRows (t : PaymentType) (l : List PaymentRow) : Int :=
  (l.filter (fun r => r.type = t)).foldl (fun s r => s + amountOrZero r.amount) 0

/-- An `{income, expense, profit}` triple. -/
structure Totals where
  income : Int
  expense : Int
  profit : Int
deriving DecidableEq, Repr

/-- `rangeTotals` (lines 376–380): totals derived from the displayed list
rows, with `profit := income - expense`. -/
def rangeTotals (rows : List PaymentRow) : Totals :=
  let income := sumRows .INCOME rows
  let expense := sumRows .EXPENSE rows
  ⟨income, expense, income - expense⟩

/-! ## refreshAll -/

/-- The slots of view state written by one `refreshAll` call: the list
rows, the four total registers, and the toast message if the cycle
failed.  (`dayProfit`/`monthProfit` are derived at render time as
`income - expense`.) -/
structure RefreshSlots where
  rows : List PaymentRow
  monthIncome : Int
  monthExpense : Int
  dayIncome : Int
  dayExpense : Int
  errorMsg : Option String
deriving DecidableEq, Repr

/-- The fallback state installed by the `catch` block of `refreshAll`
(lines 339–348): the toast shows the error and all five data slots are
reset to empty/zero. -/
def refreshFallback (e : String) : RefreshSlots :=
  ⟨[], 0, 0, 0, 0, some e⟩

/-- `refreshAll` (lines 249–351) as a function of the four remote query
results (rooms, list, month projection, day projection).  The source runs
the queries sequentially inside a single `try`; the first error throws
into the shared `catch`, so a later query's result is never applied once
an earlier one failed (in fact the later queries are never issued). -/
def refreshAll (roomsRes : Except String (List RoomLite))
    (listRes : Except String (List PaymentRow))
    (monthRes dayRes : Except String (List AggRow)) : RefreshSlots :=
  match roomsRes with
  | .error e => refreshFallback e
  | .ok _ =>
    match listRes with
    | .error e => refreshFallback e
    | .ok payList =>
      match monthRes with
      | .error e => refreshFallback e
      | .ok payMonth =>
        match dayRes with
        | .error e => refreshFallback e
        | .ok payDay =>
          { rows := payList
            monthIncome := sumAgg .INCOME payMonth
            monthExpense := sumAgg .EXPENSE payMonth
            dayIncome := sumAgg .INCOME payDay
            dayExpense := sumAgg .EXPENSE payDay
            errorMsg := none }

/-- The three range queries a refresh cycle issues, with their bounds and
the inclusivity the source requests: the list and day queries use
`gte`/`lte`, the month query `gte`/`lt` (lines 279–307). -/
structure QueryTriple where
  listGte : Int
  listLte : Int
  monthGte : Int
  monthLt : Int
  dayGte : Int
  dayLte : Int
deriving DecidableEq, Repr

/-- The bounds of the three `payments` queries issued by `refreshAll`,
as a function of the full window state. -/
def refreshQueryBounds (mode : FilterMode) (sel f t : YMD) : QueryTriple :=
  { listGte := (listRange mode sel f t).startTS
    listLte := (listRange mode sel f t).endTS
    monthGte := (monthRange sel).startTS
    monthLt := (monthRange sel).endTS
    dayGte := startOfDayTS sel
    dayLte := endOfDayTS sel }

/-! ## Export assembler -/

/-- `mapMethodVN`. -/
def mapMethodVN : PaymentMethod → String
  | .CASH => "Tiền mặt"
  | .TRANSFER => "Chuyển khoản"
  | .CARD => "Thẻ"

/-- One row of the "Cashbook" detail sheet.  The "Thời gian" cell is the
locale rendering of `paid_at`; its information content is the timestamp,
kept here as `timeTS`. -/
structure CashbookExportRow where
  timeTS : Int
  typeLabel : String
  soTien : Int
  methodLabel : String
  room : String
  ghiChu : String
  maPhieu : String
  stayId : String
deriving DecidableEq, Repr

/-- The detail-sheet row built from one payment row (lines 395–408).
JavaScript's truthiness tests on `r.room_id` and on the looked-up name
collapse `null`, a missing key and the empty string to "no room label". -/
def cashbookRowOf (roomNameById : List (String × String)) (r : PaymentRow) :
    CashbookExportRow :=
  let roomName : String :=
    match r.room_id with
    | none => ""
    | some rid => if rid = "" then "" else (roomNameById.lookup rid).getD ""
  { timeTS := r.paid_at
    typeLabel := if r.type = .INCOME then "THU" else "CHI"
    soTien := amountOrZero r.amount
    methodLabel := mapMethodVN r.method
    room := if roomName = "" then "" else "Phòng " ++ roomName
    ghiChu := r.note.getD ""
    maPhieu := r.id
    stayId := r.stay_id.getD "" }

/-- One row of the "Summary" sheet; the metadata row leaves the three
numeric cells as empty strings, modelled by `none`. -/
structure SummaryRow where
  muc : String
  khoang : String
  thu : Option Int
  chi : Option Int
  loiNhuan : Option Int
  ghiChu : String
deriving DecidableEq, Repr

/-- `rangeLabel` (lines 387–392). -/
def rangeLabel (mode : FilterMode) (sel f t : String) : String :=
  match mode with
  | .TODAY => "Ngày " ++ sel
  | .D7 => "7 ngày gần nhất (tính đến " ++ sel ++ ")"
  | .D30 => "30 ngày gần nhất (tính đến " ++ sel ++ ")"
  | .RANGE => "Từ " ++ f ++ " đến " ++ t

/-- The export filename (lines 445–452). -/
def exportFilename (mode : FilterMode) (sel f t : String) : String :=
  match mode with
  | .TODAY => "cashbook_" ++ sel ++ ".xlsx"
  | .D7 => "cashbook_" ++ sel ++ "_7days.xlsx"
  | .D30 => "cashbook_" ++ sel ++ "_30days.xlsx"
  | .RANGE => "cashbook_" ++ f ++ "_to_" ++ t ++ ".xlsx"

/-- The workbook handed to `exportWorkbookXLSX` and downloaded. -/
structure ExportFile where
  filename : String
  cashbookSheet : List CashbookExportRow
  summarySheet : List SummaryRow
deriving DecidableEq, Repr

/-- Result type of an export invocation.  The `nothingToExport`
constructor is the spec's `NothingToExport` refusal; the source's
`onExportXLSX` has no such path and always produces a file. -/
inductive ExportResult where
  | fileProduced (f : ExportFile)
  | nothingToExport
deriving DecidableEq, Repr

/-- `onExportXLSX` (lines 394–469) as a function of the view state it
reads: the displayed rows, the room-name map, the four fetched total
registers, the window state (as the strings shown in the inputs), the
property id and the export-time label.  It unconditionally assembles and
downloads the two-sheet workbook — there is no emptiness re-check. -/
def onExportXLSX (rows : List PaymentRow) (roomNameById : List (String × String))
    (dayIncome dayExpense monthIncome monthExpense : Int)
    (mode : FilterMode) (sel f t : String) (propertyId : Option String)
    (nowLabel : String) : ExportResult :=
  let cashbookRows := rows.map (cashbookRowOf roomNameById)
  let rt := rangeTotals rows
  let summaryRows : List SummaryRow :=
    [ { muc := "Tổng hợp NGÀY (theo ngày mốc)", khoang := sel,
        thu := some dayIncome, chi := some dayExpense,
        loiNhuan := some (dayIncome - dayExpense),
        ghiChu := "Tính từ bảng payments theo ngày mốc" },
      { muc := "Tổng hợp THÁNG (theo ngày mốc)", khoang := "Tháng của " ++ sel,
        thu := some monthIncome, chi := some monthExpense,
        loiNhuan := some (monthIncome - monthExpense),
        ghiChu := "Tính từ bảng payments theo tháng của ngày mốc" },
      { muc := "Tổng hợp thời gian chọn (danh sách đang xem)",
        khoang := rangeLabel mode sel f t,
        thu := some rt.income, chi := some rt.expense, loiNhuan := some rt.profit,
        ghiChu := "Tính từ danh sách phiếu đang hiển thị" },
      { muc := "Thông tin xuất file", khoang := nowLabel,
        thu := none, chi := none, loiNhuan := none,
        ghiChu := match propertyId with
                  | some pid => "property_id: " ++ pid
                  | none => "" } ]
  .fileProduced ⟨exportFilename mode sel f t, cashbookRows, summaryRows⟩

/-- The `disabled` condition of the export button
(line 582: `disabled={loading || rows.length === 0}`). -/
def exportButtonDisabled (loading : Bool) (rows : List PaymentRow) : Bool :=
  loading || rows.length == 0

/-! ## Window-state actions (anchor input and mode buttons) -/

/-- The window-selection slice of the view state (all four values are the
raw input strings). -/
structure FilterState where
  selectedDate : String
  filterMode : FilterMode
  rangeFrom : String
  rangeTo : String
deriving DecidableEq, Repr

/-- The anchor date input's `onChange` (lines 599–604): always updates
`selectedDate`; additionally resets `rangeFrom`/`rangeTo` to the new
value unless the mode is `RANGE`. -/
def onAnchorChange (st : FilterState) (v : String) : FilterState :=
  if st.filterMode = .RANGE then { st with selectedDate := v }
  else { st with selectedDate := v, rangeFrom := v, rangeTo := v }

/-- A filter-mode button's `onClick` (lines 613/621/629/637): sets the
mode and nothing else. -/
def onSetFilterMode (st : FilterState) (m : FilterMode) : FilterState :=
  { st with filterMode := m }

/-! ## Manual expense submission and income insertion -/

/-- The manual-expense form slice of the view state. -/
structure ExpenseForm where
  expAmount : String
  expMethod : PaymentMethod
  expNote : String
  expDate : String
  expRoomId : String
deriving DecidableEq, Repr

/-- The form reset performed on a successful submission (lines 509–512):
amount/note/room cleared, method back to CASH, `expDate` untouched. -/
def clearedForm (f : ExpenseForm) : ExpenseForm :=
  { f with expAmount := "", expNote := "", expMethod := .CASH, expRoomId := "" }

/-- Toast severity (`msgType`). -/
inductive ToastType where
  | error
  | success
  | info
deriving DecidableEq, Repr

/-- The payload `submitExpense` sends to the `payments` insert
(lines 490–504).  `paid_at` keeps the source's construction
`expDate + "T12:00:00"` (fixed mid-day time-of-day). -/
structure InsertedExpense where
  property_id : String
  stay_id : Option String
  room_id : Option String
  type : PaymentType
  amount : Int
  method : PaymentMethod
  note : Option String
  created_by : String
  paid_at : String
deriving DecidableEq, Repr

/-- What one `submitExpense` call did: the toast it set (if any), the
insert payload it issued (if it reached the insert), whether it invoked
`refreshAll`, where it navigated, and the form/anchor state it left. -/
structure SubmitOutcome where
  toast : Option (ToastType × String)
  insertedEntry : Option InsertedExpense
  refreshed : Bool
  navTarget : Option String
  formAfter : ExpenseForm
  selectedDateAfter : String
deriving DecidableEq, Repr

/-- Decimal value of a digit string. -/
def digitsToNat (cs : List Char) : Nat :=
  cs.foldl (fun a c => a * 10 + (c.toNat - 48)) 0

/-- JavaScript `Number(...)` on the strings this form produces
(`<input type="number">` values and free text): the empty string coerces
to `0`, integer literals (optionally signed) to their value, anything
else to `NaN` (modelled `none`).  Amounts in this application are
integer VND. -/
def jsNumber (s : String) : Option Int :=
  let cs := s.data
  if cs = [] then some 0
  else if cs.head? = some '-' then
    if cs.tail ≠ [] ∧ cs.tail.all Char.isDigit then
      some (-(digitsToNat cs.tail : Int))
    else none
  else if cs.all Char.isDigit then some (digitsToNat cs : Int)
  else none

/-- The guard `Number.isFinite(amount) && amount > 0` (negation of the
rejection test on line 475). -/
def passesAmountCheck (o : Option Int) : Bool :=
  match o with
  | none => false
  | some n => decide (0 < n)

/-- `submitExpense` (lines 471–528) as a function of the ambient state
(property id, authenticated user) and the awaited insert result.  The
insert result is `.ok (some id)` when the store returned a row id,
`.ok none` when `maybeSingle()` returned no row, `.error e` when the
insert was rejected. -/
def submitExpense (propertyId : Option String) (authUser : Option String)
    (sel : String) (form : ExpenseForm)
    (insertRes : Except String (Option String)) : SubmitOutcome :=
  match propertyId with
  | none => ⟨none, none, false, none, form, sel⟩
  | some pid =>
    if passesAmountCheck (jsNumber form.expAmount) = false then
      ⟨some (.error, "Số tiền chi không hợp lệ."), none, false, none, form, sel⟩
    else
      match authUser with
      | none => ⟨none, none, false, some "/", form, sel⟩
      | some uid =>
        let payload : InsertedExpense :=
          { property_id := pid
            stay_id := none
            room_id := if form.expRoomId = "" then none else some form.expRoomId
            type := .EXPENSE
            amount := (jsNumber form.expAmount).getD 0
            method := form.expMethod
            note := if form.expNote = "" then none else some form.expNote
            created_by := uid
            paid_at := form.expDate ++ "T12:00:00" }
        match insertRes with
        | .error e => ⟨some (.error, e), some payload, false, none, form, sel⟩
        | .ok created =>
          { toast := some (.success, "Đã tạo phiếu chi.")
            insertedEntry := some payload
            refreshed := true
            navTarget :=
              match created with
              | some cid =>
                  some ("/reports/cashbook?propertyId=" ++ pid ++ "&focus=" ++ cid)
              | none => none
            formAfter := clearedForm form
            selectedDateAfter := form.expDate }

/-- `createIncomePaymentFromStay` (`src/lib/payments.ts`, lines 14–33) as
a function of the awaited insert result: a rejected insert propagates its
error, a missing row id becomes the error "Không tạo được phiếu thu",
otherwise the generated id is returned. -/
def createIncomePaymentFromStay (insertRes : Except String (Option String)) :
    Except String String :=
  match insertRes with
  | .error e => .error e
  | .ok none => .error "Không tạo được phiếu thu"
  | .ok (some id) => .ok id

/-- Replacing a possibly-null amount by the explicit `0` the code would
coerce it to. -/
def zeroNullRow (r : PaymentRow) : PaymentRow :=
  { r with amount := some (amountOrZero r.amount) }

/-- Same replacement on the `{type, amount}` projection rows. -/
def zeroNullAgg (r : AggRow) : AggRow :=
  { r with amount := some (amountOrZero r.amount) }

/-! ## Helper lemmas -/

theorem foldl_add_shift {α : Type} (g : α → Int) (l : List α) (init : Int) :
    l.foldl (fun s r => s + g r) init = init + (l.map g).sum := by
  induction l generalizing init with
  | nil => simp
  | cons x xs ih => simp [ih, add_assoc]

theorem sumRows_eq_sum (t : PaymentType) (l : List PaymentRow) :
    sumRows t l = ((l.filter (fun r => r.type = t)).map (fun r => amountOrZero r.amount)).sum := by
  simp [sumRows, foldl_add_shift]

theorem sumAgg_eq_sum (t : PaymentType) (l : List AggRow) :
    sumAgg t l = ((l.filter (fun r => r.type = t)).map (fun r => amountOrZero r.amount)).sum := by
  simp [sumAgg, foldl_add_shift]

/-! ## Claims -/

/-- C1: for every list of ledger entries, the computed aggregate has
`income` = sum of the amounts of `INCOME` entries, `expense` = sum of the
amounts of `EXPENSE` entries, and `profit = income - expense`; this holds
for `rangeTotals` over the displayed list and for the day and month
totals produced by a fully successful `refreshAll` cycle (whose profit
figures are derived as `income - expense` at render time). -/
theorem aggregate_totals_correct (rows : List PaymentRow)
    (payMonth payDay : List AggRow) (roomsL : List RoomLite) :
    (rangeTotals rows).income
        = ((rows.filter (fun r => r.type = PaymentType.INCOME)).map
            (fun r => amountOrZero r.amount)).sum
  ∧ (rangeTotals rows).expense
        = ((rows.filter (fun r => r.type = PaymentType.EXPENSE)).map
            (fun r => amountOrZero r.amount)).sum
  ∧ (rangeTotals rows).profit = (rangeTotals rows).income - (rangeTotals rows).expense
  ∧ (refreshAll (.ok roomsL) (.ok rows) (.ok payMonth) (.ok payDay)).monthIncome
        = ((payMonth.filter (fun r => r.type = PaymentType.INCOME)).map
            (fun r => amountOrZero r.amount)).sum
  ∧ (refreshAll (.ok roomsL) (.ok rows) (.ok payMonth) (.ok payDay)).monthExpense
        = ((payMonth.filter (fun r => r.type = PaymentType.EXPENSE)).map
            (fun r => amountOrZero r.amount)).sum
  ∧ (refreshAll (.ok roomsL) (.ok rows) (.ok payMonth) (.ok payDay)).dayIncome
        = ((payDay.filter (fun r => r.type = PaymentType.INCOME)).map
            (fun r => amountOrZero r.amount)).sum
  ∧ (refreshAll (.ok roomsL) (.ok rows) (.ok payMonth) (.ok payDay)).dayExpense
        = ((payDay.filter (fun r => r.type = PaymentType.EXPENSE)).map
            (fun r => amountOrZero r.amount)).sum := by
  refine ⟨sumRows_eq_sum _ _, sumRows_eq_sum _ _, rfl, ?_, ?_, ?_, ?_⟩ <;>
    simp [refreshAll, sumAgg_eq_sum]

/-- C2 (counterexample): with the list query failing and the month and
day queries succeeding (`INCOME 7` in the month, `EXPENSE 3` on the day),
the refresh does NOT keep the successful slots: the whole cycle falls
back, so the month income is `0`, not the `7` its successful query would
aggregate to, and likewise the day expense is `0`, not `3`. -/
theorem refresh_partial_failure_cex :
    (refreshAll (.ok []) (.error "boom")
        (.ok [⟨PaymentType.INCOME, some 7⟩]) (.ok [⟨PaymentType.EXPENSE, some 3⟩]))
      = refreshFallback "boom"
  ∧ (refreshFallback "boom").monthIncome = 0
  ∧ (refreshFallback "boom").dayExpense = 0
  ∧ sumAgg PaymentType.INCOME [⟨PaymentType.INCOME, some 7⟩] = 7
  ∧ sumAgg PaymentType.EXPENSE [⟨PaymentType.EXPENSE, some 3⟩] = 3
  ∧ (0 : Int) ≠ 7 := by
  refine ⟨rfl, rfl, rfl, rfl, rfl, by decide⟩

/-- C2 (amended): a refresh cycle is all-or-nothing.  If any of the
queries fails (the source runs them sequentially inside one `try`), the
shared `catch` installs the fallback for every slot — empty list, zeroed
month and day totals — and reports the single error; the results of the
queries that would have succeeded are not applied.  Only when every query
succeeds does each slot receive its own query's result. -/
theorem refresh_failure_is_total (roomsL : List RoomLite) (rows : List PaymentRow)
    (payMonth payDay : List AggRow) (e : String)
    (lRes : Except String (List PaymentRow)) (mRes dRes : Except String (List AggRow)) :
    refreshAll (.ok roomsL) (.error e) mRes dRes = refreshFallback e
  ∧ refreshAll (.ok roomsL) (.ok rows) (.error e) dRes = refreshFallback e
  ∧ refreshAll (.ok roomsL) (.ok rows) (.ok payMonth) (.error e) = refreshFallback e
  ∧ refreshAll (.error e) lRes mRes dRes = refreshFallback e
  ∧ refreshAll (.ok roomsL) (.ok rows) (.ok payMonth) (.ok payDay)
      = ⟨rows, sumAgg .INCOME payMonth, sumAgg .EXPENSE payMonth,
          sumAgg .INCOME payDay, sumAgg .EXPENSE payDay, none⟩ :=
  ⟨rfl, rfl, rfl, rfl, rfl⟩

theorem coveredDays_day_aligned (a b : Int) :
    coveredDays ⟨a * msPerDay, b * msPerDay + (msPerDay - 1)⟩ = Set.Icc a b := by
  ext k
  simp only [coveredDays, msPerDay, Set.mem_setOf_eq, Set.mem_Icc]
  omega

theorem listRange_D7_eq (sel f t : YMD) :
    listRange .D7 sel f t
      = ⟨(dn sel - 6) * msPerDay, dn sel * msPerDay + (msPerDay - 1)⟩ := by
  simp only [listRange, jsSetDateDN, dn, dayNumber, endOfDayTS, TimeRange.mk.injEq]
  exact ⟨by ring, trivial⟩

theorem listRange_D30_eq (sel f t : YMD) :
    listRange .D30 sel f t
      = ⟨(dn sel - 29) * msPerDay, dn sel * msPerDay + (msPerDay - 1)⟩ := by
  simp only [listRange, jsSetDateDN, dn, dayNumber, endOfDayTS, TimeRange.mk.injEq]
  exact ⟨by ring, trivial⟩

/-- C4: for every valid anchor date `D`, the `D7` window starts at the
first instant of the day 6 days before `D` and ends at the last instant
of `D`; the calendar days it fully covers are exactly the interval of
7 consecutive day numbers ending on `D`'s.  Likewise `D30` covers
exactly the 30 consecutive calendar days ending on and including `D`.
(The validity hypothesis is the domain on which the embedding of
`Date.getDate` as the day component is faithful.) -/
theorem last_windows_span (sel f t : YMD) (h : ValidYMD sel) :
    (listRange .D7 sel f t).startTS = (dn sel - 6) * msPerDay
  ∧ (listRange .D7 sel f t).endTS = dn sel * msPerDay + (msPerDay - 1)
  ∧ coveredDays (listRange .D7 sel f t) = Set.Icc (dn sel - 6) (dn sel)
  ∧ (Finset.Icc (dn sel - 6) (dn sel)).card = 7
  ∧ (listRange .D30 sel f t).startTS = (dn sel - 29) * msPerDay
  ∧ (listRange .D30 sel f t).endTS = dn sel * msPerDay + (msPerDay - 1)
  ∧ coveredDays (listRange .D30 sel f t) = Set.Icc (dn sel - 29) (dn sel)
  ∧ (Finset.Icc (dn sel - 29) (dn sel)).card = 30 := by
  refine ⟨by rw [listRange_D7_eq], by rw [listRange_D7_eq], ?_, ?_,
          by rw [listRange_D30_eq], by rw [listRange_D30_eq], ?_, ?_⟩
  · rw [listRange_D7_eq, coveredDays_day_aligned]
  · rw [Int.card_Icc]; omega
  · rw [listRange_D30_eq, coveredDays_day_aligned]
  · rw [Int.card_Icc]; omega

/-- The first instant of the anchor's calendar month, written from the
spec's words. -/
def firstInstantOfMonth (x : YMD) : Int := dayNumber x.y x.mo 1 * msPerDay

/-- The first instant of the calendar month following the anchor's,
written from the spec's words (December rolls into January of the next
year). -/
def firstInstantOfNextMonth (x : YMD) : Int :=
  (if x.mo = 11 then dayNumber (x.y + 1) 0 1 else dayNumber x.y (x.mo + 1) 1) * msPerDay

theorem monthStartDN_self (y mo : Int) :
    monthStartDN y mo * msPerDay = dayNumber y mo 1 * msPerDay := by
  simp [dayNumber]

theorem monthStartDN_next (y mo : Int) (h1 : 0 ≤ mo) (h2 : mo ≤ 11) :
    monthStartDN y (mo + 1)
      = if mo = 11 then dayNumber (y + 1) 0 1 else dayNumber y (mo + 1) 1 := by
  interval_cases mo <;>
    norm_num [monthStartDN, dayNumber, Int.fdiv, Int.emod,
      daysBeforeMonthAux, daysInMonthAux]

/-- C5 (counterexample): the source builds the month bounds with the
multi-argument `Date` constructor, which remaps year arguments 0–99 to
1900–1999.  For the anchor `0050-01-10` (year 50, reachable through the
date input, whose string parse performs no remap) the queried month
window therefore starts at the first instant of January 1950 — not at
the first instant of the anchor's own calendar month — refuting the
claim's "for every anchor date". -/
theorem month_window_remap_cex :
    ValidYMD ⟨50, 0, 10⟩
  ∧ (refreshQueryBounds .TODAY ⟨50, 0, 10⟩ ⟨50, 0, 10⟩ ⟨50, 0, 10⟩).monthGte
      = dayNumber 1950 0 1 * msPerDay
  ∧ (refreshQueryBounds .TODAY ⟨50, 0, 10⟩ ⟨50, 0, 10⟩ ⟨50, 0, 10⟩).monthGte
      ≠ firstInstantOfMonth ⟨50, 0, 10⟩ := by
  refine ⟨by decide, by decide, by decide⟩

/-- C5 (amended): for every valid anchor date whose year is not in the
remapped band 0–99, the month window queried during `refreshAll` runs
from the first instant of the anchor's calendar month to the first
instant of the next month, the source requesting `gte` on the former and
strict `lt` on the latter (half-open interval).  For anchor years 0–99
the multi-argument `Date` constructor's remap shifts the whole window to
the month of year `1900 + year` instead.  In every case the bounds do
not depend on the filter mode or on `rangeFrom`/`rangeTo`. -/
theorem month_window_bounds (sel f t f' t' : YMD) (mode mode' : FilterMode)
    (h : ValidYMD sel) :
    (¬(0 ≤ sel.y ∧ sel.y ≤ 99) →
        (refreshQueryBounds mode sel f t).monthGte = firstInstantOfMonth sel
      ∧ (refreshQueryBounds mode sel f t).monthLt = firstInstantOfNextMonth sel)
  ∧ ((0 ≤ sel.y ∧ sel.y ≤ 99) →
        (refreshQueryBounds mode sel f t).monthGte
          = firstInstantOfMonth ⟨1900 + sel.y, sel.mo, sel.d⟩
      ∧ (refreshQueryBounds mode sel f t).monthLt
          = firstInstantOfNextMonth ⟨1900 + sel.y, sel.mo, sel.d⟩)
  ∧ (refreshQueryBounds mode sel f t).monthGte = (refreshQueryBounds mode' sel f' t').monthGte
  ∧ (refreshQueryBounds mode sel f t).monthLt = (refreshQueryBounds mode' sel f' t').monthLt := by
  obtain ⟨y, mo, d⟩ := sel
  obtain ⟨h1, h2, -, -⟩ := h
  simp only at h1 h2
  refine ⟨fun hy => ?_, fun hy => ?_, rfl, rfl⟩
  · have hcy : jsCtorYear y = y := by simp [jsCtorYear, hy]
    constructor
    · simp only [refreshQueryBounds, monthRange, firstInstantOfMonth, hcy]
      exact monthStartDN_self y mo
    · simp only [refreshQueryBounds, monthRange, firstInstantOfNextMonth, hcy,
        monthStartDN_next y mo h1 h2]
  · have hcy : jsCtorYear y = 1900 + y := by simp [jsCtorYear, hy.1, hy.2]
    constructor
    · simp only [refreshQueryBounds, monthRange, firstInstantOfMonth, hcy]
      exact monthStartDN_self (1900 + y) mo
    · simp only [refreshQueryBounds, monthRange, firstInstantOfNextMonth, hcy,
        monthStartDN_next (1900 + y) mo h1 h2]

/-- C6: for every date `D`, the window resolved for mode `TODAY` with
anchor `D` has exactly the same start and end instants as the window
resolved for mode `RANGE` with `rangeFrom = rangeTo = D` (whatever the
other, unused parameters are). -/
theorem today_window_eq_single_day_range (D selForRange f t : YMD) :
    listRange .TODAY D f t = listRange .RANGE selForRange D D := rfl

/-- C3 (counterexample): invoking the export with an empty displayed
list does not refuse with `NothingToExport` — it produces a workbook
whose detail sheet is simply empty. -/
theorem export_empty_list_cex :
    onExportXLSX [] [] 0 0 0 0 .TODAY "2024-01-10" "2024-01-10" "2024-01-10" none "now"
      ≠ ExportResult.nothingToExport
  ∧ onExportXLSX [] [] 0 0 0 0 .TODAY "2024-01-10" "2024-01-10" "2024-01-10" none "now"
      = .fileProduced
          { filename := "cashbook_2024-01-10.xlsx"
            cashbookSheet := []
            summarySheet :=
              [ { muc := "Tổng hợp NGÀY (theo ngày mốc)", khoang := "2024-01-10",
                  thu := some 0, chi := some 0, loiNhuan := some 0,
                  ghiChu := "Tính từ bảng payments theo ngày mốc" },
                { muc := "Tổng hợp THÁNG (theo ngày mốc)", khoang := "Tháng của 2024-01-10",
                  thu := some 0, chi := some 0, loiNhuan := some 0,
                  ghiChu := "Tính từ bảng payments theo tháng của ngày mốc" },
                { muc := "Tổng hợp thời gian chọn (danh sách đang xem)",
                  khoang := "Ngày 2024-01-10",
                  thu := some 0, chi := some 0, loiNhuan := some 0,
                  ghiChu := "Tính từ danh sách phiếu đang hiển thị" },
                { muc := "Thông tin xuất file", khoang := "now",
                  thu := none, chi := none, loiNhuan := none, ghiChu := "" } ] } := by
  exact ⟨by decide, by decide⟩

/-- C3 (amended): the export assembler performs no emptiness re-check:
for every state, including an empty entry list, it produces a file whose
detail sheet maps the displayed rows and whose summary sheet has the
four fixed rows.  The only protection against exporting an empty list is
the caller's button, which is disabled whenever the list is empty or a
refresh is in flight. -/
theorem export_always_builds_file (rows : List PaymentRow)
    (roomNameById : List (String × String)) (dI dE mI mE : Int)
    (mode : FilterMode) (sel f t : String) (pid : Option String)
    (nowLabel : String) (loading : Bool) :
    (∃ wb, onExportXLSX rows roomNameById dI dE mI mE mode sel f t pid nowLabel
             = .fileProduced wb
         ∧ wb.cashbookSheet = rows.map (cashbookRowOf roomNameById)
         ∧ wb.filename = exportFilename mode sel f t
         ∧ wb.summarySheet.length = 4)
  ∧ exportButtonDisabled loading [] = true := by
  refine ⟨⟨_, rfl, rfl, rfl, rfl⟩, ?_⟩
  simp [exportButtonDisabled]

/-- C7: the anchor input resets `rangeFrom`/`rangeTo` to the new anchor
in the three named modes and leaves them alone in `RANGE` mode; switching
the mode away from `RANGE` and straight back changes nothing but the
mode (so explicit bounds are preserved when the anchor did not change),
while an anchor change to `v` in between collapses both bounds to `v`. -/
theorem anchor_reset_and_mode_switch (st : FilterState) (v : String)
    (m : FilterMode) (hm : m ≠ .RANGE) :
    (st.filterMode ≠ .RANGE →
       onAnchorChange st v = { st with selectedDate := v, rangeFrom := v, rangeTo := v })
  ∧ (st.filterMode = .RANGE → onAnchorChange st v = { st with selectedDate := v })
  ∧ onSetFilterMode (onSetFilterMode st m) .RANGE = { st with filterMode := .RANGE }
  ∧ onSetFilterMode (onAnchorChange (onSetFilterMode st m) v) .RANGE
      = { st with selectedDate := v, rangeFrom := v, rangeTo := v,
                  filterMode := .RANGE } := by
  refine ⟨fun hne => ?_, fun heq => ?_, rfl, ?_⟩
  · simp [onAnchorChange, hne]
  · simp [onAnchorChange, heq]
  · simp [onAnchorChange, onSetFilterMode, hm]

/-- C8: a manual expense submission whose amount fails the
`Number.isFinite(amount) && amount > 0` check (for example the unparsable
string "abc") sets the inline validation toast and stops: no insert is
issued, no refresh is triggered, no navigation happens, and the form and
anchor state are left unchanged. -/
theorem invalid_amount_rejected (pid : String) (user : Option String)
    (sel : String) (form : ExpenseForm) (ins : Except String (Option String))
    (h : passesAmountCheck (jsNumber form.expAmount) = false) :
    submitExpense (some pid) user sel form ins
      = ⟨some (.error, "Số tiền chi không hợp lệ."), none, false, none, form, sel⟩ := by
  simp [submitExpense, h]

/-- C9 (counterexample): when the expense insert returns no error but no
row id either, `submitExpense` reports success — the success toast is
set, the refresh runs — and merely skips the focus navigation, so the
half of the claim asserting that the manual submission "reports failure,
rather than success, when the store returns no id" is false. -/
theorem submit_no_id_reports_success_cex :
    (submitExpense (some "p1") (some "u1") "2024-01-10"
        ⟨"200000", .CASH, "", "2024-01-10", ""⟩ (.ok none)).toast
      = some (ToastType.success, "Đã tạo phiếu chi.")
  ∧ (submitExpense (some "p1") (some "u1") "2024-01-10"
        ⟨"200000", .CASH, "", "2024-01-10", ""⟩ (.ok none)).refreshed = true
  ∧ (submitExpense (some "p1") (some "u1") "2024-01-10"
        ⟨"200000", .CASH, "", "2024-01-10", ""⟩ (.ok none)).navTarget = none
  ∧ ToastType.success ≠ ToastType.error := by
  refine ⟨by decide, by decide, by decide, by decide⟩

/-- C9 (amended): of the two insert sites, only the automatic income
insert treats a missing generated id as a failure:
`createIncomePaymentFromStay` propagates a rejected insert's error and
fails with its own error when no id comes back, while `submitExpense`
(with a valid amount) treats an id-less, error-less insert as a success —
success toast, refresh — and only skips the focus navigation it performs
when an id is returned. -/
theorem insert_id_handling (e cid pid uid sel : String) (form : ExpenseForm)
    (hv : passesAmountCheck (jsNumber form.expAmount) = true) :
    createIncomePaymentFromStay (.error e) = .error e
  ∧ createIncomePaymentFromStay (.ok none) = .error "Không tạo được phiếu thu"
  ∧ createIncomePaymentFromStay (.ok (some cid)) = .ok cid
  ∧ (submitExpense (some pid) (some uid) sel form (.ok none)).toast
      = some (.success, "Đã tạo phiếu chi.")
  ∧ (submitExpense (some pid) (some uid) sel form (.ok none)).refreshed = true
  ∧ (submitExpense (some pid) (some uid) sel form (.ok none)).navTarget = none
  ∧ (submitExpense (some pid) (some uid) sel form (.ok (some cid))).navTarget
      = some ("/reports/cashbook?propertyId=" ++ pid ++ "&focus=" ++ cid) := by
  refine ⟨rfl, rfl, rfl, ?_, ?_, ?_, ?_⟩ <;> simp [submitExpense, hv]

theorem cashbookRowOf_zeroNull (m : List (String × String)) (r : PaymentRow) :
    cashbookRowOf m (zeroNullRow r) = cashbookRowOf m r := by
  simp [cashbookRowOf, zeroNullRow, amountOrZero]

theorem sumRows_zeroNull (t : PaymentType) (rows : List PaymentRow) :
    sumRows t (rows.map zeroNullRow) = sumRows t rows := by
  simp only [sumRows, List.filter_map, List.foldl_map]
  have hp : ((fun r : PaymentRow => decide (r.type = t)) ∘ zeroNullRow)
      = fun r : PaymentRow => decide (r.type = t) := by
    funext r; simp [zeroNullRow]
  have hf : (fun (s : Int) (r : PaymentRow) => s + amountOrZero (zeroNullRow r).amount)
      = fun (s : Int) (r : PaymentRow) => s + amountOrZero r.amount := by
    funext s r; simp [zeroNullRow, amountOrZero]
  rw [hp, hf]

theorem sumAgg_zeroNull (t : PaymentType) (l : List AggRow) :
    sumAgg t (l.map zeroNullAgg) = sumAgg t l := by
  simp only [sumAgg, List.filter_map, List.foldl_map]
  have hp : ((fun r : AggRow => decide (r.type = t)) ∘ zeroNullAgg)
      = fun r : AggRow => decide (r.type = t) := by
    funext r; simp [zeroNullAgg]
  have hf : (fun (s : Int) (r : AggRow) => s + amountOrZero (zeroNullAgg r).amount)
      = fun (s : Int) (r : AggRow) => s + amountOrZero r.amount := by
    funext s r; simp [zeroNullAgg, amountOrZero]
  rw [hp, hf]

theorem rangeTotals_zeroNull (rows : List PaymentRow) :
    rangeTotals (rows.map zeroNullRow) = rangeTotals rows := by
  simp [rangeTotals, sumRows_zeroNull]

/-- C10: an entry whose amount is missing/null contributes exactly `0`
everywhere the view aggregates or renders amounts: replacing every null
amount by an explicit `0` changes neither the range totals, nor the
day/month reductions of `refreshAll`, nor the export's detail sheet, nor
the assembled workbook (the computations are total functions, so a null
amount never causes a failure either). -/
theorem null_amounts_contribute_zero (rows : List PaymentRow) (l : List AggRow)
    (t : PaymentType) (roomNameById : List (String × String))
    (dI dE mI mE : Int) (mode : FilterMode) (sel f tt : String)
    (pid : Option String) (nowLabel : String) :
    rangeTotals (rows.map zeroNullRow) = rangeTotals rows
  ∧ sumAgg t (l.map zeroNullAgg) = sumAgg t l
  ∧ (rows.map zeroNullRow).map (cashbookRowOf roomNameById)
      = rows.map (cashbookRowOf roomNameById)
  ∧ onExportXLSX (rows.map zeroNullRow) roomNameById dI dE mI mE mode sel f tt pid nowLabel
      = onExportXLSX rows roomNameById dI dE mI mE mode sel f tt pid nowLabel := by
  have hmap : (rows.map zeroNullRow).map (cashbookRowOf roomNameById)
      = rows.map (cashbookRowOf roomNameById) := by
    simp [List.map_map, Function.comp, cashbookRowOf_zeroNull]
  refine ⟨rangeTotals_zeroNull rows, sumAgg_zeroNull t l, hmap, ?_⟩
  simp [onExportXLSX, hmap, rangeTotals_zeroNull rows]

/-! ## Witnesses for the theorems with hypotheses -/

theorem last_windows_span_witness :
    ValidYMD ⟨2024, 2, 3⟩
  ∧ coveredDays (listRange .D7 ⟨2024, 2, 3⟩ ⟨2024, 2, 3⟩ ⟨2024, 2, 3⟩)
      = Set.Icc (dn ⟨2024, 2, 3⟩ - 6) (dn ⟨2024, 2, 3⟩) :=
  ⟨by decide,
   (last_windows_span ⟨2024, 2, 3⟩ ⟨2024, 2, 3⟩ ⟨2024, 2, 3⟩ (by decide)).2.2.1⟩

theorem month_window_bounds_witness :
    ValidYMD ⟨2024, 0, 10⟩
  ∧ ¬((0 : Int) ≤ 2024 ∧ (2024 : Int) ≤ 99)
  ∧ (refreshQueryBounds .TODAY ⟨2024, 0, 10⟩ ⟨2024, 0, 10⟩ ⟨2024, 0, 10⟩).monthLt
      = firstInstantOfNextMonth ⟨2024, 0, 10⟩ :=
  ⟨by decide, by decide,
   ((month_window_bounds ⟨2024, 0, 10⟩ ⟨2024, 0, 10⟩ ⟨2024, 0, 10⟩ ⟨2024, 0, 10⟩
      ⟨2024, 0, 10⟩ .TODAY .RANGE (by decide)).1 (by decide)).2⟩

theorem anchor_reset_and_mode_switch_witness :
    FilterMode.TODAY ≠ FilterMode.RANGE
  ∧ onSetFilterMode
      (onAnchorChange
        (onSetFilterMode ⟨"2024-01-10", .RANGE, "2024-01-01", "2024-01-05"⟩ .TODAY)
        "2024-02-02")
      .RANGE
    = ⟨"2024-02-02", .RANGE, "2024-02-02", "2024-02-02"⟩ :=
  ⟨by decide,
   (anchor_reset_and_mode_switch ⟨"2024-01-10", .RANGE, "2024-01-01", "2024-01-05"⟩
      "2024-02-02" .TODAY (by decide)).2.2.2⟩

theorem invalid_amount_rejected_witness :
    passesAmountCheck (jsNumber "abc") = false
  ∧ submitExpense (some "p1") (some "u1") "2024-01-10"
      ⟨"abc", .CASH, "", "2024-01-10", ""⟩ (.ok (some "x"))
    = ⟨some (.error, "Số tiền chi không hợp lệ."), none, false, none,
        ⟨"abc", .CASH, "", "2024-01-10", ""⟩, "2024-01-10"⟩ :=
  ⟨by decide,
   invalid_amount_rejected "p1" (some "u1") "2024-01-10"
      ⟨"abc", .CASH, "", "2024-01-10", ""⟩ (.ok (some "x")) (by decide)⟩

theorem insert_id_handling_witness :
    passesAmountCheck (jsNumber "200000") = true
  ∧ (submitExpense (some "p1") (some "u1") "2024-01-10"
        ⟨"200000", .TRANSFER, "note", "2024-01-10", ""⟩ (.ok (some "c1"))).navTarget
      = some ("/reports/cashbook?propertyId=" ++ "p1" ++ "&focus=" ++ "c1") :=
  ⟨by decide,
   (insert_id_handling "e" "c1" "p1" "u1" "2024-01-10"
      ⟨"200000", .TRANSFER, "note", "2024-01-10", ""⟩ (by decide)).2.2.2.2.2.2⟩

end Cashbook
